import Mathlib

/-!
Shallow embedding of the icyuzi scholarship-application portal
(React/TypeScript + Supabase) for specification checking.

Sources embedded:
- `src/src/pages/Apply.tsx` (file selection validation, upload-then-insert
  submission pipeline `handleSubmit`)
- `src/src/pages/AdminDashboard.tsx` (admin guard, `handleStatusUpdate`,
  `loadApplications`, `filteredApplications`)
- `src/src/pages/Dashboard.tsx` (`loadData`: the per-student listing query)
- `src/unnamed/part_000` (AuthContext: `checkAdminStatus`)

Remote calls (blob-store uploads, relational inserts/updates) are embedded by
passing their results explicitly: an upload is an `Except String String`
(error message or public URL), the database is a `List Application`, and
timestamps are `Nat` (the store's `created_at`/`updated_at` values, ordered
as the store orders them).
-/

namespace Icyuzi

/-- The `Application` row interface from `src/unnamed/part_000`
(`lib/supabase.ts`): ids are the store's string keys, `status` is a string
(the TS type is a union of the four string literals), timestamps are
modelled as naturals ordered as the store orders them. -/
structure Application where
  id : String
  student_id : String
  desired_country : String
  desired_college : String
  education_level : String
  field_of_study : String
  passport_url : String
  transcripts_url : String
  motivation_letter_url : String
  status : String
  admin_notes : Option String
  created_at : Nat
  updated_at : Nat
deriving DecidableEq, Repr

/-- The `Student` row interface from `lib/supabase.ts` (timestamps omitted:
no embedded operation reads them). -/
structure Student where
  id : String
  full_name : String
  email : String
  phone : String
deriving DecidableEq, Repr

/-- `ApplicationWithStudent` from `AdminDashboard.tsx`: an application row
joined with its student row. -/
structure ApplicationWithStudent extends Application where
  student : Student
deriving DecidableEq, Repr

/-- The declared metadata of a browser `File` object: `name`, declared MIME
`type`, and `size` in bytes. -/
structure FileMeta where
  name : String
  type : String
  size : Nat
deriving DecidableEq, Repr

/-- The three document slots of the application form (`Apply.tsx`). -/
inductive DocSlot
  | passport
  | transcripts
  | motivationLetter
deriving DecidableEq, Repr

/-- The `type` parameter string of `handleFileChange` for each slot. -/
def DocSlot.name : DocSlot → String
  | .passport => "passport"
  | .transcripts => "transcripts"
  | .motivationLetter => "motivationLetter"

/-- The `files` state of `Apply.tsx`: each slot holds a selected file or
`null`. -/
structure FilesSel where
  passport : Option FileMeta
  transcripts : Option FileMeta
  motivationLetter : Option FileMeta
deriving DecidableEq, Repr

/-- `setFiles({...files, [type]: file})` from `handleFileChange`. -/
def FilesSel.set (files : FilesSel) (slot : DocSlot) (f : FileMeta) : FilesSel :=
  match slot with
  | .passport => { files with passport := some f }
  | .transcripts => { files with transcripts := some f }
  | .motivationLetter => { files with motivationLetter := some f }

/-- The `validTypes` list of `handleFileChange` (`Apply.tsx` line 56). -/
def validTypes : List String :=
  ["application/pdf", "application/zip", "application/x-zip-compressed"]

/-- `handleFileChange` from `Apply.tsx` (lines 53-71). Input: the current
`files` state and the file picked for `slot` (`e.target.files?.[0]`, `none`
when no file was picked). Output: the new `files` state and the error
message set by `setError` (`none` embeds `setError('')`; rejection leaves
the `files` state unchanged). -/
def handleFileChange (files : FilesSel) (slot : DocSlot) (file : Option FileMeta) :
    FilesSel × Option String :=
  match file with
  | none => (files, none)
  | some f =>
    if !(validTypes.contains f.type) then
      (files, some ("Please upload a PDF or ZIP file for " ++ slot.name))
    else if f.size > 10 * 1024 * 1024 then
      (files, some ("File size must be less than 10MB for " ++ slot.name))
    else
      (files.set slot f, none)

/-- The `formData` state of `Apply.tsx`. -/
structure FormData where
  desiredCountry : String
  desiredCollege : String
  educationLevel : String
  fieldOfStudy : String
deriving DecidableEq, Repr

instance {ε α : Type} [DecidableEq ε] [DecidableEq α] : DecidableEq (Except ε α)
  | .ok a, .ok b => if h : a = b then .isTrue (by rw [h]) else .isFalse (by simp [h])
  | .ok _, .error _ => .isFalse (by simp)
  | .error _, .ok _ => .isFalse (by simp)
  | .error a, .error b => if h : a = b then .isTrue (by rw [h]) else .isFalse (by simp [h])

/-- The results of the remote calls a run of `handleSubmit` performs, in
program order: the three `uploadFile` calls (each throws an error or returns
a public URL) and the `insert` into `applications` (`some e` embeds a thrown
`insertError`). -/
structure SubmitEnv where
  upPassport : Except String String
  upTranscripts : Except String String
  upMotivation : Except String String
  insertErr : Option String
deriving DecidableEq, Repr

/-- The observable outcome of `handleSubmit`: either `setError(msg)` fired
(early return or catch branch), or the submission succeeded and navigation
to the WhatsApp handoff URL happened. -/
inductive SubmitOutcome
  | failure (msg : String)
  | success
deriving DecidableEq, Repr

/-- The row `handleSubmit` inserts into `applications` (`Apply.tsx` lines
112-124): every form field copied verbatim, the three upload URLs, and the
literal `status: 'Pending'`; `admin_notes` is not set by the insert. -/
def mkSubmitted (uid : String) (form : FormData)
    (passportUrl transcriptsUrl motivationLetterUrl : String)
    (newId : String) (now : Nat) : Application :=
  { id := newId
    student_id := uid
    desired_country := form.desiredCountry
    desired_college := form.desiredCollege
    education_level := form.educationLevel
    field_of_study := form.fieldOfStudy
    passport_url := passportUrl
    transcripts_url := transcriptsUrl
    motivation_letter_url := motivationLetterUrl
    status := "Pending"
    admin_notes := none
    created_at := now
    updated_at := now }

/-- `handleSubmit` from `Apply.tsx` (lines 90-135): an early return when any
of the three files is missing; otherwise the passport, transcripts and
motivation-letter uploads in that order, each thrown error caught (db
unchanged, message surfaced); then the insert of the new row with
`status: 'Pending'` and all form fields copied verbatim. Returns the
database after the run and the outcome. -/
def handleSubmit (uid : String) (form : FormData) (files : FilesSel) (env : SubmitEnv)
    (db : List Application) (newId : String) (now : Nat) :
    List Application × SubmitOutcome :=
  if files.passport.isNone || files.transcripts.isNone || files.motivationLetter.isNone then
    (db, .failure "Please upload all required documents")
  else
    match env.upPassport with
    | .error e => (db, .failure e)
    | .ok passportUrl =>
      match env.upTranscripts with
      | .error e => (db, .failure e)
      | .ok transcriptsUrl =>
        match env.upMotivation with
        | .error e => (db, .failure e)
        | .ok motivationLetterUrl =>
          match env.insertErr with
          | some e => (db, .failure e)
          | none =>
            (db ++ [mkSubmitted uid form passportUrl transcriptsUrl motivationLetterUrl
                      newId now], .success)

/-- `handleStatusUpdate`'s store effect (`AdminDashboard.tsx` lines 60-79):
`update({status: newStatus}).eq('id', appId)` writes `status` on every row
whose id equals `appId` and touches nothing else in those rows and no other
row. Modelled from the spec: the store bumps `updated_at` on every mutation
(the database trigger is repository code not under `src/`); the rest is the
client query verbatim. -/
def updateStatusDb (db : List Application) (appId : String) (newStatus : String)
    (now : Nat) : List Application :=
  db.map fun a =>
    if a.id == appId then { a with status := newStatus, updated_at := now } else a

/-- `checkAdminStatus` from `src/unnamed/part_000` (AuthContext lines 46-59):
the admin-membership lookup either throws (the catch branch) or returns the
row found by `eq('id', userId).maybeSingle()`; `setIsAdmin(!!data)` on
success, `setIsAdmin(false)` on a thrown error. -/
def checkAdminStatus (lookup : Except String (Option String)) : Bool :=
  match lookup with
  | .ok (some _) => true
  | .ok none => false
  | .error _ => false

/-- `s.toLowerCase()` on a JS string, embedded over the character list. -/
def lowerChars (s : String) : List Char :=
  s.toList.map Char.toLower

/-- `hay.toLowerCase().includes(needle.toLowerCase())` from
`filteredApplications`: case-insensitive substring test. -/
def includesCI (hay needle : String) : Bool :=
  decide (lowerChars needle <:+: lowerChars hay)

/-- `filteredApplications` from `AdminDashboard.tsx` (lines 81-90):
`applications.filter` of the conjunction of the search match (case-insensitive
substring against student full name, desired country, desired college, OR-ed)
and the status match (`filterStatus === 'all' || app.status === filterStatus`). -/
def filteredApplications (applications : List ApplicationWithStudent)
    (searchTerm filterStatus : String) : List ApplicationWithStudent :=
  applications.filter fun app =>
    (includesCI app.student.full_name searchTerm
      || includesCI app.desired_country searchTerm
      || includesCI app.desired_college searchTerm)
    && (filterStatus == "all" || app.status == filterStatus)

/-- The ordering `order('created_at', {ascending: false})` sorts by:
newest (largest `created_at`) first. -/
def createdDesc (x y : Application) : Prop :=
  y.created_at ≤ x.created_at

instance : DecidableRel createdDesc := fun _ _ => Nat.decLe _ _

instance : IsTotal Application createdDesc :=
  ⟨fun x y => by unfold createdDesc; exact Nat.le_total _ _⟩

instance : IsTrans Application createdDesc :=
  ⟨fun a b c h1 h2 => by unfold createdDesc at *; exact le_trans h2 h1⟩

/-- The query issued by `loadData` in `Dashboard.tsx` (lines 35-43):
`from('applications').select('*').eq('student_id', user.id)
.order('created_at', {ascending: false})` — the store's rows filtered by
owner and sorted newest-first. -/
def listForStudent (db : List Application) (sid : String) : List Application :=
  List.insertionSort createdDesc (db.filter fun a => a.student_id == sid)

/-- The query issued by `loadApplications` in `AdminDashboard.tsx`
(lines 30-53): every application row ordered newest-first, each joined with
its student row (`students!applications_student_id_fkey`); rows whose student
is absent carry no join result and are dropped by the embedding of the
foreign-key join. -/
def listAll (db : List Application) (students : List Student) :
    List ApplicationWithStudent :=
  (List.insertionSort createdDesc db).filterMap fun a =>
    (students.find? fun s => s.id == a.student_id).map fun s =>
      { a with student := s }

/-- The session state of the `AdminDashboard` page: whether the guard
`useEffect` fired `navigate('/admin/login')` (unmounting the dashboard), the
`applications` state loaded by `loadApplications`, and the store contents. -/
structure AdminPage where
  redirected : Bool
  applications : List ApplicationWithStudent
  db : List Application
deriving DecidableEq, Repr

/-- Entering `AdminDashboard` (`AdminDashboard.tsx` lines 21-28): the guard
`if (!user || !isAdmin) { navigate('/admin/login'); return; }` redirects
before any data access; otherwise `loadApplications()` runs the `listAll`
query. -/
def adminDashboardInit (user : Option String) (isAdmin : Bool)
    (db : List Application) (students : List Student) : AdminPage :=
  if user.isNone || !isAdmin then
    { redirected := true, applications := [], db := db }
  else
    { redirected := false, applications := listAll db students, db := db }

/-- A click on one of the three status buttons of the details modal
(`AdminDashboard.tsx` lines 326-348), carrying the arguments the button
passes to `handleStatusUpdate`. -/
structure UpdateReq where
  appId : String
  newStatus : String
  now : Nat
deriving DecidableEq, Repr

/-- One `handleStatusUpdate` interaction on the admin page: the buttons live
in the rendered dashboard, so a session the guard redirected away performs
nothing; otherwise the store update runs and `loadApplications()` reloads
the list (`AdminDashboard.tsx` lines 60-79). -/
def adminStep (students : List Student) (s : AdminPage) (r : UpdateReq) : AdminPage :=
  if s.redirected then s
  else
    let db2 := updateStatusDb s.db r.appId r.newStatus r.now
    { redirected := false, applications := listAll db2 students, db := db2 }

/-- A whole admin-page session: entry followed by a sequence of status-update
interactions. -/
def adminRun (students : List Student) (s : AdminPage) (reqs : List UpdateReq) :
    AdminPage :=
  reqs.foldl (adminStep students) s

/-- The three literals the `handleStatusUpdate` call sites pass
(`AdminDashboard.tsx` lines 327-348: the Mark-as-Reviewed, Accept and Reject
buttons). -/
inductive StatusChoice
  | reviewed
  | accepted
  | rejected
deriving DecidableEq, Repr

/-- The string each call site passes as `newStatus`. -/
def StatusChoice.toStr : StatusChoice → String
  | .reviewed => "Reviewed"
  | .accepted => "Accepted"
  | .rejected => "Rejected"

/-- The events that mutate the `applications` collection in the source: a
student submission (`handleSubmit` in `Apply.tsx`) and an admin status
update through one of the three buttons (`AdminDashboard.tsx`). -/
inductive SysEvent
  | submit (uid : String) (form : FormData) (files : FilesSel) (env : SubmitEnv)
      (newId : String) (now : Nat)
  | adminUpdate (appId : String) (choice : StatusChoice) (now : Nat)
deriving DecidableEq, Repr

/-- The store effect of one system event. -/
def sysStep (db : List Application) : SysEvent → List Application
  | .submit uid form files env newId now => (handleSubmit uid form files env db newId now).1
  | .adminUpdate appId choice now => updateStatusDb db appId choice.toStr now

/-- The store after a sequence of system events. -/
def sysRun (db : List Application) (es : List SysEvent) : List Application :=
  es.foldl sysStep db

/-- The status strings of the `Application` union type in `lib/supabase.ts`. -/
def validStatus (s : String) : Bool :=
  s == "Pending" || s == "Reviewed" || s == "Accepted" || s == "Rejected"

/-! Concrete sample values used by witnesses and counterexamples. -/

/-- A well-formed small PDF file. -/
def pdfFile : FileMeta := { name := "a.pdf", type := "application/pdf", size := 1024 }

/-- A PNG file (invalid declared type for the application form). -/
def pngFile : FileMeta := { name := "a.png", type := "image/png", size := 1024 }

/-- A files state with all three documents selected. -/
def allFiles : FilesSel :=
  { passport := some pdfFile, transcripts := some pdfFile, motivationLetter := some pdfFile }

/-- A files state with no document selected. -/
def noFiles : FilesSel := { passport := none, transcripts := none, motivationLetter := none }

/-- A form whose desired-country field is the empty string and whose other
three fields are filled. -/
def emptyCountryForm : FormData :=
  { desiredCountry := ""
    desiredCollege := "UBC"
    educationLevel := "Bachelor's Degree"
    fieldOfStudy := "Engineering" }

/-- A remote environment in which all three uploads and the insert succeed. -/
def okEnv : SubmitEnv :=
  { upPassport := .ok "u1", upTranscripts := .ok "u2", upMotivation := .ok "u3"
    insertErr := none }

/-- A sample application row owned by student `"A"`. -/
def appOfA : Application :=
  { id := "app1"
    student_id := "A"
    desired_country := "Canada"
    desired_college := "UBC"
    education_level := "Bachelor's Degree"
    field_of_study := "Engineering"
    passport_url := "p"
    transcripts_url := "t"
    motivation_letter_url := "m"
    status := "Pending"
    admin_notes := none
    created_at := 10
    updated_at := 10 }

/-- A sample application row owned by student `"B"`. -/
def appOfB : Application :=
  { appOfA with id := "app2", student_id := "B", created_at := 20, updated_at := 20 }

/-- A two-student sample store. -/
def sampleDb : List Application := [appOfA, appOfB]

/-! Helper lemmas shared by the claim theorems. -/

/-- `handleSubmit` with a missing document returns the fixed failure and
leaves the store unchanged (the early return of `Apply.tsx` lines 94-97). -/
theorem handleSubmit_missing_doc (uid : String) (form : FormData) (files : FilesSel)
    (env : SubmitEnv) (db : List Application) (newId : String) (now : Nat)
    (h : files.passport = none ∨ files.transcripts = none ∨ files.motivationLetter = none) :
    handleSubmit uid form files env db newId now
      = (db, .failure "Please upload all required documents") := by
  unfold handleSubmit
  rcases h with h | h | h <;> rw [h] <;> simp

/-- A run of `handleSubmit` either leaves the store unchanged, or all three
uploads and the insert succeeded and exactly the one new `Pending` row was
appended. -/
theorem handleSubmit_cases (uid : String) (form : FormData) (files : FilesSel)
    (env : SubmitEnv) (db : List Application) (newId : String) (now : Nat) :
    (handleSubmit uid form files env db newId now).1 = db ∨
    ∃ pu tu mu, env.upPassport = .ok pu ∧ env.upTranscripts = .ok tu ∧
      env.upMotivation = .ok mu ∧ env.insertErr = none ∧
      handleSubmit uid form files env db newId now
        = (db ++ [mkSubmitted uid form pu tu mu newId now], .success) := by
  unfold handleSubmit
  by_cases hc : (files.passport.isNone || files.transcripts.isNone
      || files.motivationLetter.isNone) = true
  · rw [if_pos hc]; left; rfl
  · rw [if_neg hc]
    cases hP : env.upPassport with
    | error e => left; rfl
    | ok pu =>
      cases hT : env.upTranscripts with
      | error e => left; rfl
      | ok tu =>
        cases hM : env.upMotivation with
        | error e => left; rfl
        | ok mu =>
          cases hI : env.insertErr with
          | some e => left; rfl
          | none => right; exact ⟨pu, tu, mu, rfl, rfl, rfl, rfl, rfl⟩

/-! The claim theorems. -/

/-- C1 (counterexample): `handleSubmit` run with all three documents present
but an empty desired-country field succeeds and inserts a record, so the
claim "any empty descriptive field makes submit fail and insert nothing" is
false of the submit handler. -/
theorem C1_counterexample :
    emptyCountryForm.desiredCountry = "" ∧
    (handleSubmit "s1" emptyCountryForm allFiles okEnv [] "a1" 5).2 = SubmitOutcome.success ∧
    (handleSubmit "s1" emptyCountryForm allFiles okEnv [] "a1" 5).1 ≠ [] := by
  refine ⟨rfl, rfl, ?_⟩
  decide

/-- C1 (amended): if any of the three documents is missing, `handleSubmit`
returns a failure and inserts no Application record; the four descriptive
fields are not checked by the submit handler. -/
theorem C1_submit_requires_documents (uid : String) (form : FormData) (files : FilesSel)
    (env : SubmitEnv) (db : List Application) (newId : String) (now : Nat)
    (h : files.passport = none ∨ files.transcripts = none ∨ files.motivationLetter = none) :
    handleSubmit uid form files env db newId now
      = (db, .failure "Please upload all required documents") :=
  handleSubmit_missing_doc uid form files env db newId now h

/-- Witness for C1 at a concrete input: a submission with no documents
selected fails with the fixed message and leaves the empty store empty. -/
theorem C1_submit_requires_documents_witness :
    noFiles.passport = none ∧
    handleSubmit "s1" emptyCountryForm noFiles okEnv [] "a1" 5
      = ([], .failure "Please upload all required documents") :=
  ⟨rfl, C1_submit_requires_documents "s1" emptyCountryForm noFiles okEnv [] "a1" 5
    (Or.inl rfl)⟩

/-- C3: with all three documents present, a failure of the passport upload,
of the transcripts upload after a passport success, or of the
motivation-letter upload after the first two succeed, each aborts the run
with that stage's error surfaced and the store unchanged (so the stages act
in that order and the first failure wins); a failing insert also leaves the
store unchanged; and the store changes only when all three uploads and the
insert succeed, in which case exactly the new row is appended. -/
theorem C3_upload_pipeline (uid : String) (form : FormData) (files : FilesSel)
    (env : SubmitEnv) (db : List Application) (newId : String) (now : Nat)
    (hp : files.passport.isSome) (ht : files.transcripts.isSome)
    (hm : files.motivationLetter.isSome) :
    (∀ e, env.upPassport = .error e →
      handleSubmit uid form files env db newId now = (db, .failure e)) ∧
    (∀ pu e, env.upPassport = .ok pu → env.upTranscripts = .error e →
      handleSubmit uid form files env db newId now = (db, .failure e)) ∧
    (∀ pu tu e, env.upPassport = .ok pu → env.upTranscripts = .ok tu →
      env.upMotivation = .error e →
      handleSubmit uid form files env db newId now = (db, .failure e)) ∧
    (∀ pu tu mu e, env.upPassport = .ok pu → env.upTranscripts = .ok tu →
      env.upMotivation = .ok mu → env.insertErr = some e →
      handleSubmit uid form files env db newId now = (db, .failure e)) ∧
    ((handleSubmit uid form files env db newId now).1 ≠ db →
      ∃ pu tu mu, env.upPassport = .ok pu ∧ env.upTranscripts = .ok tu ∧
        env.upMotivation = .ok mu ∧ env.insertErr = none ∧
        handleSubmit uid form files env db newId now
          = (db ++ [mkSubmitted uid form pu tu mu newId now], .success)) := by
  have hp' : files.passport.isNone = false := by
    cases hx : files.passport <;> simp_all
  have ht' : files.transcripts.isNone = false := by
    cases hx : files.transcripts <;> simp_all
  have hm' : files.motivationLetter.isNone = false := by
    cases hx : files.motivationLetter <;> simp_all
  refine ⟨?_, ?_, ?_, ?_, ?_⟩
  · intro e he
    unfold handleSubmit
    rw [hp', ht', hm', he]
    rfl
  · intro pu e hpu he
    unfold handleSubmit
    rw [hp', ht', hm', hpu, he]
    rfl
  · intro pu tu e hpu htu he
    unfold handleSubmit
    rw [hp', ht', hm', hpu, htu, he]
    rfl
  · intro pu tu mu e hpu htu hmu he
    unfold handleSubmit
    rw [hp', ht', hm', hpu, htu, hmu, he]
    rfl
  · intro hne
    rcases handleSubmit_cases uid form files env db newId now with hdb | hsucc
    · exact absurd hdb hne
    · exact hsucc

/-- Witness for C3 at a concrete input: with all documents present and a
passport upload that fails with "boom", the run surfaces "boom" and leaves
the empty store empty. -/
theorem C3_upload_pipeline_witness :
    allFiles.passport.isSome = true ∧
    handleSubmit "s1" emptyCountryForm allFiles
        { upPassport := .error "boom", upTranscripts := .ok "u2"
          upMotivation := .ok "u3", insertErr := none } [] "a1" 5
      = ([], .failure "boom") :=
  ⟨rfl, (C3_upload_pipeline "s1" emptyCountryForm allFiles
      { upPassport := .error "boom", upTranscripts := .ok "u2"
        upMotivation := .ok "u3", insertErr := none } [] "a1" 5
      rfl rfl rfl).1 "boom" rfl⟩

/-- A session the guard redirected away is inert: no status-update
interaction has any effect. -/
theorem adminRun_redirected (students : List Student) (s : AdminPage)
    (h : s.redirected = true) (reqs : List UpdateReq) :
    adminRun students s reqs = s := by
  induction reqs with
  | nil => rfl
  | cons r rs ih =>
    unfold adminRun at ih ⊢
    simp only [List.foldl_cons]
    rw [show adminStep students s r = s by unfold adminStep; rw [h]; rfl]
    exact ih

/-- C2: an admin-dashboard session of a principal that is absent from the
admin set (or of no principal at all) is redirected to the admin login page
before any data access: the `listAll` query never populates the page, and no
sequence of attempted status updates changes any Application record. -/
theorem C2_non_admin_rejected (user : Option String) (isAdmin : Bool)
    (db : List Application) (students : List Student) (reqs : List UpdateReq)
    (h : user = none ∨ isAdmin = false) :
    adminRun students (adminDashboardInit user isAdmin db students) reqs
      = { redirected := true, applications := [], db := db } := by
  have hinit : adminDashboardInit user isAdmin db students
      = { redirected := true, applications := [], db := db } := by
    unfold adminDashboardInit
    rcases h with h | h <;> rw [h] <;> simp
  rw [hinit]
  exact adminRun_redirected students _ rfl reqs

/-- Witness for C2 at a concrete input: a signed-in non-admin principal who
attempts one Accepted-update is redirected and the store is untouched. -/
theorem C2_non_admin_rejected_witness :
    false = false ∧
    adminRun [] (adminDashboardInit (some "mallory") false sampleDb [])
        [{ appId := "app1", newStatus := "Accepted", now := 30 }]
      = { redirected := true, applications := [], db := sampleDb } :=
  ⟨rfl, C2_non_admin_rejected (some "mallory") false sampleDb []
    [{ appId := "app1", newStatus := "Accepted", now := 30 }] (Or.inr rfl)⟩

/-- One system event keeps every status in the four-literal set: a submit
inserts only a `Pending` row, and the three admin buttons write only
`Reviewed`, `Accepted` or `Rejected`. -/
theorem sysStep_validStatus (db : List Application) (e : SysEvent)
    (h : db.all (fun a => validStatus a.status) = true) :
    (sysStep db e).all (fun a => validStatus a.status) = true := by
  cases e with
  | submit uid form files env newId now =>
    rcases handleSubmit_cases uid form files env db newId now with hdb | ⟨pu, tu, mu, _, _, _, _, heq⟩
    · show (handleSubmit uid form files env db newId now).1.all _ = true
      rw [hdb]; exact h
    · show (handleSubmit uid form files env db newId now).1.all _ = true
      rw [heq]
      simp only [List.all_append, h, Bool.true_and]
      rfl
  | adminUpdate appId choice now =>
    show (updateStatusDb db appId choice.toStr now).all _ = true
    unfold updateStatusDb
    rw [List.all_map]
    rw [List.all_eq_true] at h ⊢
    intro a ha
    by_cases hid : (a.id == appId) = true
    · simp only [Function.comp_apply, hid, if_pos]
      cases choice <;> rfl
    · simp only [Function.comp_apply, hid, Bool.false_eq_true, if_neg, not_false_iff]
      exact h a ha

/-- C4: starting from any store whose statuses all lie in
{Pending, Reviewed, Accepted, Rejected}, every sequence of submissions and
admin status updates keeps every Application's status in that set: creation
writes the literal Pending and each update button writes one of Reviewed,
Accepted, Rejected. -/
theorem C4_status_invariant (db : List Application) (es : List SysEvent)
    (h : db.all (fun a => validStatus a.status) = true) :
    (sysRun db es).all (fun a => validStatus a.status) = true := by
  induction es generalizing db with
  | nil => exact h
  | cons e es ih =>
    show (sysRun (sysStep db e) es).all _ = true
    exact ih _ (sysStep_validStatus db e h)

/-- Witness for C4 at a concrete input: from the empty store, one successful
submission followed by an Accept leaves every status in the valid set. -/
theorem C4_status_invariant_witness :
    (([] : List Application).all (fun a => validStatus a.status) = true) ∧
    (sysRun []
        [.submit "s1" emptyCountryForm allFiles okEnv "a1" 5,
         .adminUpdate "a1" .accepted 6]).all (fun a => validStatus a.status) = true :=
  ⟨rfl, C4_status_invariant []
    [.submit "s1" emptyCountryForm allFiles okEnv "a1" 5,
     .adminUpdate "a1" .accepted 6] rfl⟩

/-- C5: `listForStudent` returns exactly the rows owned by the requested
student id (as a permutation of the store's filter, with matching membership)
sorted newest-first by `created_at`; hence it never returns a row owned by a
different student. -/
theorem C5_listForStudent_exact (db : List Application) (sid : String) :
    (listForStudent db sid).Perm (db.filter fun a => a.student_id == sid) ∧
    List.Sorted createdDesc (listForStudent db sid) ∧
    (∀ a, a ∈ listForStudent db sid ↔ a ∈ db ∧ a.student_id = sid) ∧
    (∀ other a, other ≠ sid → a ∈ listForStudent db sid → a.student_id ≠ other) := by
  have hmem : ∀ a, a ∈ listForStudent db sid ↔ a ∈ db ∧ a.student_id = sid := by
    intro a
    rw [listForStudent, (List.perm_insertionSort _ _).mem_iff, List.mem_filter]
    simp
  refine ⟨List.perm_insertionSort _ _, List.sorted_insertionSort _ _, hmem, ?_⟩
  intro other a hne ha
  rw [((hmem a).mp ha).2]
  exact fun hc => hne hc.symm

/-- Witness for C5 at a concrete input: in the two-student sample store the
listing for student A contains A's row, which is not owned by B. -/
theorem C5_listForStudent_exact_witness :
    ("B" : String) ≠ "A" ∧ appOfA.student_id ≠ "B" :=
  ⟨by decide, (C5_listForStudent_exact sampleDb "A").2.2.2 "B" appOfA (by decide) (by decide)⟩

/-- The search predicate in the words of the claim: the search term is a
case-insensitive substring of the student full name, the desired country, or
the desired institution (spec-side definition, for comparison with the
source's `filteredApplications`). -/
def specSearchMatch (searchTerm : String) (app : ApplicationWithStudent) : Prop :=
  lowerChars searchTerm <:+: lowerChars app.student.full_name ∨
  lowerChars searchTerm <:+: lowerChars app.desired_country ∨
  lowerChars searchTerm <:+: lowerChars app.desired_college

/-- The status predicate in the words of the claim: the filter is "all" or
equals the application's status exactly (spec-side definition). -/
def specStatusMatch (filterStatus : String) (app : ApplicationWithStudent) : Prop :=
  filterStatus = "all" ∨ app.status = filterStatus

/-- C6: `filteredApplications` returns exactly the members of the input for
which the claim's search predicate (case-insensitive substring over the
three fields, OR) and status predicate ("all" or exact match, AND) hold. -/
theorem C6_filter_exact (apps : List ApplicationWithStudent)
    (searchTerm filterStatus : String) (a : ApplicationWithStudent) :
    a ∈ filteredApplications apps searchTerm filterStatus ↔
      a ∈ apps ∧ specSearchMatch searchTerm a ∧ specStatusMatch filterStatus a := by
  unfold filteredApplications specSearchMatch specStatusMatch includesCI
  rw [List.mem_filter]
  simp only [Bool.and_eq_true, Bool.or_eq_true, decide_eq_true_eq, beq_iff_eq, or_assoc]

/-- C7: the file-selection validation accepts a picked file exactly when its
declared media type is one of the pdf/zip types and its size is at most
10 MiB; any rejection leaves the selected-files state unchanged; and a PNG
offered as the passport is rejected with the upload error message while the
handler performs no upload call, so a subsequent submit (with the passport
slot still empty) fails without touching the store. -/
theorem C7_file_validation (files : FilesSel) (slot : DocSlot) (f : FileMeta) :
    ((handleFileChange files slot (some f)).2 = none ↔
      f.type ∈ validTypes ∧ f.size ≤ 10 * 1024 * 1024) ∧
    (∀ msg, (handleFileChange files slot (some f)).2 = some msg →
      (handleFileChange files slot (some f)).1 = files) ∧
    (f.type = "image/png" →
      handleFileChange files DocSlot.passport (some f)
        = (files, some "Please upload a PDF or ZIP file for passport") ∧
      (files.passport = none → ∀ uid form env db newId now,
        handleSubmit uid form
            (handleFileChange files DocSlot.passport (some f)).1 env db newId now
          = (db, .failure "Please upload all required documents"))) := by
  have hdef : ∀ sl : DocSlot, handleFileChange files sl (some f)
      = if (!validTypes.contains f.type) = true then
          (files, some ("Please upload a PDF or ZIP file for " ++ sl.name))
        else if f.size > 10 * 1024 * 1024 then
          (files, some ("File size must be less than 10MB for " ++ sl.name))
        else (files.set sl f, none) := fun _ => rfl
  have hmem : validTypes.contains f.type = true ↔ f.type ∈ validTypes := List.elem_iff
  refine ⟨?_, ?_, ?_⟩
  · rw [hdef slot]
    by_cases hty : validTypes.contains f.type = true
    · by_cases hsz : f.size > 10 * 1024 * 1024
      · simp only [hty, Bool.not_true, Bool.false_eq_true, if_false, if_pos hsz]
        constructor
        · intro hc; exact absurd hc (by simp)
        · rintro ⟨-, hle⟩; omega
      · simp only [hty, Bool.not_true, Bool.false_eq_true, if_false, if_neg hsz]
        constructor
        · intro _; exact ⟨hmem.mp hty, by omega⟩
        · intro _; trivial
    · have hty' : validTypes.contains f.type = false := by
        cases hx : validTypes.contains f.type
        · rfl
        · exact absurd hx hty
      simp only [hty', Bool.not_false, if_true]
      constructor
      · intro hc; exact absurd hc (by simp)
      · rintro ⟨hm, -⟩; exact absurd (hmem.mpr hm) hty
  · intro msg hmsg
    rw [hdef slot] at hmsg ⊢
    by_cases hty : (!validTypes.contains f.type) = true
    · rw [if_pos hty]
    · rw [if_neg hty] at hmsg ⊢
      by_cases hsz : f.size > 10 * 1024 * 1024
      · rw [if_pos hsz]
      · rw [if_neg hsz] at hmsg
        exact absurd hmsg (by simp)
  · intro hpng
    have hty' : validTypes.contains f.type = false := by rw [hpng]; rfl
    have hreject : handleFileChange files DocSlot.passport (some f)
        = (files, some "Please upload a PDF or ZIP file for passport") := by
      rw [hdef DocSlot.passport, hty']
      rfl
    refine ⟨hreject, fun hnone uid form env db newId now => ?_⟩
    rw [hreject]
    exact handleSubmit_missing_doc uid form files env db newId now (Or.inl hnone)

/-- Witness for C7 at a concrete input: the PNG file offered as the passport
of an empty selection is rejected with the upload error, and the submit that
follows fails with the missing-documents error on an unchanged empty store. -/
theorem C7_file_validation_witness :
    pngFile.type = "image/png" ∧
    handleFileChange noFiles DocSlot.passport (some pngFile)
      = (noFiles, some "Please upload a PDF or ZIP file for passport") ∧
    handleSubmit "s1" emptyCountryForm
        (handleFileChange noFiles DocSlot.passport (some pngFile)).1 okEnv [] "a1" 5
      = ([], .failure "Please upload all required documents") := by
  have h := (C7_file_validation noFiles DocSlot.passport pngFile).2.2 rfl
  exact ⟨rfl, h.1, h.2 rfl "s1" emptyCountryForm okEnv [] "a1" 5⟩

/-- C9: a status update rewrites, in every row whose id matches, exactly the
status (to the new status) and `updated_at` (to the store's mutation time),
leaving the row's other eleven fields unchanged, and leaves every row with a
different id entirely unchanged. -/
theorem C9_updateStatus_frame (db : List Application) (appId newStatus : String)
    (now : Nat) (i : Nat) (h : i < db.length) :
    ∃ h2 : i < (updateStatusDb db appId newStatus now).length,
      ((db.get ⟨i, h⟩).id = appId →
        ((updateStatusDb db appId newStatus now).get ⟨i, h2⟩).status = newStatus ∧
        ((updateStatusDb db appId newStatus now).get ⟨i, h2⟩).updated_at = now ∧
        ((updateStatusDb db appId newStatus now).get ⟨i, h2⟩).id = (db.get ⟨i, h⟩).id ∧
        ((updateStatusDb db appId newStatus now).get ⟨i, h2⟩).student_id
          = (db.get ⟨i, h⟩).student_id ∧
        ((updateStatusDb db appId newStatus now).get ⟨i, h2⟩).desired_country
          = (db.get ⟨i, h⟩).desired_country ∧
        ((updateStatusDb db appId newStatus now).get ⟨i, h2⟩).desired_college
          = (db.get ⟨i, h⟩).desired_college ∧
        ((updateStatusDb db appId newStatus now).get ⟨i, h2⟩).education_level
          = (db.get ⟨i, h⟩).education_level ∧
        ((updateStatusDb db appId newStatus now).get ⟨i, h2⟩).field_of_study
          = (db.get ⟨i, h⟩).field_of_study ∧
        ((updateStatusDb db appId newStatus now).get ⟨i, h2⟩).passport_url
          = (db.get ⟨i, h⟩).passport_url ∧
        ((updateStatusDb db appId newStatus now).get ⟨i, h2⟩).transcripts_url
          = (db.get ⟨i, h⟩).transcripts_url ∧
        ((updateStatusDb db appId newStatus now).get ⟨i, h2⟩).motivation_letter_url
          = (db.get ⟨i, h⟩).motivation_letter_url ∧
        ((updateStatusDb db appId newStatus now).get ⟨i, h2⟩).admin_notes
          = (db.get ⟨i, h⟩).admin_notes ∧
        ((updateStatusDb db appId newStatus now).get ⟨i, h2⟩).created_at
          = (db.get ⟨i, h⟩).created_at) ∧
      ((db.get ⟨i, h⟩).id ≠ appId →
        (updateStatusDb db appId newStatus now).get ⟨i, h2⟩ = db.get ⟨i, h⟩) := by
  have hlen : (updateStatusDb db appId newStatus now).length = db.length := by
    unfold updateStatusDb
    exact List.length_map _ _
  have h2 : i < (updateStatusDb db appId newStatus now).length := by rw [hlen]; exact h
  have hget : (updateStatusDb db appId newStatus now).get ⟨i, h2⟩
      = if (db.get ⟨i, h⟩).id == appId
        then { db.get ⟨i, h⟩ with status := newStatus, updated_at := now }
        else db.get ⟨i, h⟩ := by
    unfold updateStatusDb
    simp [List.get_eq_getElem, List.getElem_map]
  refine ⟨h2, ?_, ?_⟩
  · intro hid
    rw [hget, if_pos (by rw [hid]; exact beq_self_eq_true appId)]
    exact ⟨rfl, rfl, rfl, rfl, rfl, rfl, rfl, rfl, rfl, rfl, rfl, rfl, rfl⟩
  · intro hid
    rw [hget, if_neg (by simpa using hid)]

/-- Witness for C9 at a concrete input: accepting application "app1" in the
two-row sample store sets row 0's status to Accepted, bumps its
`updated_at`, keeps its country, and leaves row 1 (a different id) equal to
its old value. -/
theorem C9_updateStatus_frame_witness :
    (sampleDb.get ⟨0, by decide⟩).id = "app1" ∧
    ((updateStatusDb sampleDb "app1" "Accepted" 30).get ⟨0, by decide⟩).status
      = "Accepted" ∧
    ((updateStatusDb sampleDb "app1" "Accepted" 30).get ⟨0, by decide⟩).updated_at = 30 ∧
    ((updateStatusDb sampleDb "app1" "Accepted" 30).get ⟨0, by decide⟩).desired_country
      = (sampleDb.get ⟨0, by decide⟩).desired_country ∧
    (updateStatusDb sampleDb "app1" "Accepted" 30).get ⟨1, by decide⟩
      = sampleDb.get ⟨1, by decide⟩ := by
  obtain ⟨h2, hc0⟩ := C9_updateStatus_frame sampleDb "app1" "Accepted" 30 0 (by decide)
  obtain ⟨h2', hc1⟩ := C9_updateStatus_frame sampleDb "app1" "Accepted" 30 1 (by decide)
  have hmatch := hc0.1 (by decide)
  exact ⟨by decide, hmatch.1, hmatch.2.1, hmatch.2.2.2.2.1, hc1.2 (by decide)⟩

/-- C10: the admin filter is a sublist of its input (it preserves relative
order), so the filtered view is sorted newest-first by `created_at` whenever
the input collection is. -/
theorem C10_filter_subsequence (apps : List ApplicationWithStudent)
    (searchTerm filterStatus : String) :
    List.Sublist (filteredApplications apps searchTerm filterStatus) apps ∧
    (List.Pairwise (fun x y => y.created_at ≤ x.created_at) apps →
      List.Pairwise (fun x y => y.created_at ≤ x.created_at)
        (filteredApplications apps searchTerm filterStatus)) :=
  ⟨List.filter_sublist apps,
   fun hs => List.Pairwise.sublist (List.filter_sublist apps) hs⟩

/-- The student profile joined to the sample rows. -/
def studentA : Student :=
  { id := "A", full_name := "Alice Smith", email := "a@x.com", phone := "1" }

/-- A two-row joined collection ordered newest-first. -/
def sampleJoined : List ApplicationWithStudent :=
  [{ appOfB with student := { studentA with id := "B", full_name := "Bob Jones" } },
   { appOfA with student := studentA }]

/-- Witness for C10 at a concrete input: the sample joined collection is
newest-first and stays newest-first after filtering by status Pending. -/
theorem C10_filter_subsequence_witness :
    List.Pairwise (fun x y => y.created_at ≤ x.created_at) sampleJoined ∧
    List.Pairwise (fun x y => y.created_at ≤ x.created_at)
      (filteredApplications sampleJoined "" "Pending") :=
  ⟨by decide, (C10_filter_subsequence sampleJoined "" "Pending").2 (by decide)⟩

/-- C8: when the admin-membership lookup throws (a network or store error),
`checkAdminStatus` resolves the role to not-admin rather than propagating
the error. -/
theorem C8_lookup_error_not_admin (e : String) :
    checkAdminStatus (.error e) = false :=
  rfl

end Icyuzi
